import Mathlib

set_option maxRecDepth 10000

/-!
Verification of the report-generation pipeline of the `americanaidream`
repository (Supabase edge function `analyze-ai-economy/index.ts`) and of the
history-view aggregation (`src/pages/History.tsx` and the `part_002` variant).

The JavaScript source is shallowly embedded: JS strings are `String`/`List
Char`, JS numbers that can only arise from parsed JSON are `Rat` (the JSON
grammar cannot produce `NaN`/`Infinity`), dashboard numbers that may be `NaN`
are a dedicated type `JSNum`, `undefined`/`null` inputs are `Option`, and the
handler is a pure function from an environment, an external-world valuation
and a store to a response, a new store and a trace of outbound calls.
-/

/-- Whitespace recognised by the model of `String.prototype.trim` and of the
JSON grammar (space, tab, line feed, carriage return). -/
def isWsChar (c : Char) : Bool :=
  c = ' ' || c = '\t' || c = '\n' || c = '\r'

/-- Model of `s.trim()`: drop trailing whitespace (via reverse), then leading
whitespace. -/
def trimList (l : List Char) : List Char :=
  ((l.reverse.dropWhile isWsChar).reverse).dropWhile isWsChar

/-- Test `leadsWith tok s`: true iff `tok` occurs at the very start of `s`
(Boolean prefix test, used to model regex matching at a position). -/
def leadsWith : List Char → List Char → Bool
  | [], _ => true
  | _ :: _, [] => false
  | a :: as, b :: bs => a == b && leadsWith as bs

/-- Test `containsSeq tok s`: true iff `tok` occurs contiguously somewhere in
`s` (Boolean substring test). -/
def containsSeq (tok : List Char) (s : List Char) : Bool :=
  match s with
  | [] => tok.isEmpty
  | _ :: rest => leadsWith tok s || containsSeq tok rest

/-- One left-to-right pass of `String.prototype.replace` with a global regex
`tok\n?` and empty replacement: at each position, if the token (optionally
followed by a line feed) matches it is deleted and scanning resumes after the
match, otherwise the character is kept.  `skip` counts characters of a match
that remain to be deleted. -/
def stripTokenGo (tok : List Char) : Nat → List Char → List Char
  | _, [] => []
  | skip + 1, _ :: rest => stripTokenGo tok skip rest
  | 0, c :: rest =>
    if leadsWith (tok ++ ['\n']) (c :: rest) then
      stripTokenGo tok tok.length rest
    else if leadsWith tok (c :: rest) then
      stripTokenGo tok (tok.length - 1) rest
    else
      c :: stripTokenGo tok 0 rest

/-- Model of `s.replace(/tok\n?/g, '')`. -/
def stripToken (tok : List Char) (s : List Char) : List Char :=
  stripTokenGo tok 0 s

/-- The character list of the fence token in the first `replace` of
`index.ts` line 173. -/
def fenceJsonTok : List Char := "```json".data

/-- The character list of the fence token in the second `replace` of
`index.ts` line 173. -/
def fenceTok : List Char := "```".data

/-- Model of `index.ts` line 173: remove every occurrence of the two fence markers,
then trim the result. -/
def cleanContent (raw : String) : String :=
  String.mk (trimList (stripToken fenceTok (stripToken fenceJsonTok raw.data)))

/-- JSON values as produced by the model of `JSON.parse`.  Object member
lists keep insertion order; a duplicate key is resolved on access (last one
wins, as in JavaScript). -/
inductive Json where
  | null : Json
  | bool (b : Bool) : Json
  | num (q : ℚ) : Json
  | str (s : String) : Json
  | arr (elems : List Json) : Json
  | obj (members : List (String × Json)) : Json

/-- Numeric value of a list of decimal digit characters. -/
def digitsVal (ds : List Char) : ℕ :=
  ds.foldl (fun n c => n * 10 + (c.toNat - 48)) 0

/-- Hexadecimal digit test. -/
def isHexDigitCh (c : Char) : Bool :=
  c.isDigit || ('a' ≤ c && c ≤ 'f') || ('A' ≤ c && c ≤ 'F')

/-- Value of a hexadecimal digit character. -/
def hexVal (c : Char) : ℕ :=
  if c.isDigit then c.toNat - 48
  else if 'a' ≤ c ∧ c ≤ 'f' then c.toNat - 87
  else c.toNat - 55

/-- Body of a JSON string literal after the opening quote: consume until the
closing quote, honouring the JSON escape sequences.  Returns the decoded
string and the remaining input. -/
def parseStringBody : List Char → List Char → Option (String × List Char)
  | [], _ => none
  | '"' :: r, acc => some (String.mk acc.reverse, r)
  | '\\' :: r, acc =>
    match r with
    | '"' :: rr => parseStringBody rr ('"' :: acc)
    | '\\' :: rr => parseStringBody rr ('\\' :: acc)
    | '/' :: rr => parseStringBody rr ('/' :: acc)
    | 'b' :: rr => parseStringBody rr ('\x08' :: acc)
    | 'f' :: rr => parseStringBody rr ('\x0C' :: acc)
    | 'n' :: rr => parseStringBody rr ('\n' :: acc)
    | 'r' :: rr => parseStringBody rr ('\r' :: acc)
    | 't' :: rr => parseStringBody rr ('\t' :: acc)
    | 'u' :: a :: b :: c :: d :: rr =>
      if isHexDigitCh a && isHexDigitCh b && isHexDigitCh c && isHexDigitCh d then
        parseStringBody rr
          (Char.ofNat (4096 * hexVal a + 256 * hexVal b + 16 * hexVal c + hexVal d) :: acc)
      else
        none
    | _ => none
  | c :: r, acc =>
    if c.toNat < 32 then none else parseStringBody r (c :: acc)

/-- JSON number at the head of the input: optional minus sign, integer part
with no superfluous leading zero, optional fraction, optional exponent.  The
value is assembled with `mkRat` from the integer mantissa and decimal scale
so that evaluation stays inside kernel-reducible arithmetic. -/
def parseNumber (s : List Char) : Option (Json × List Char) :=
  let sgn : ℤ × List Char :=
    match s with
    | '-' :: r => (-1, r)
    | _ => (1, s)
  match sgn.2 with
  | c :: _ =>
    if c.isDigit then
      let ip : List Char × List Char :=
        if c = '0' then ([c], sgn.2.tail) else sgn.2.span Char.isDigit
      let frac : Option ((ℕ × ℕ) × List Char) :=
        match ip.2 with
        | '.' :: rr =>
          let fp := rr.span Char.isDigit
          if fp.1 = [] then none
          else some ((fp.1.length, digitsVal fp.1), fp.2)
        | _ => some ((0, 0), ip.2)
      match frac with
      | none => none
      | some ((fl, fv), r2) =>
        let expo : Option ((Bool × ℕ) × List Char) :=
          match r2 with
          | e :: rr =>
            if e = 'e' || e = 'E' then
              let es : Bool × List Char :=
                match rr with
                | '+' :: q => (false, q)
                | '-' :: q => (true, q)
                | _ => (false, rr)
              let ep := es.2.span Char.isDigit
              if ep.1 = [] then none else some ((es.1, digitsVal ep.1), ep.2)
            else some ((false, 0), r2)
          | [] => some ((false, 0), r2)
        match expo with
        | none => none
        | some ((eneg, emag), r3) =>
          let mant : ℤ := sgn.1 * ((digitsVal ip.1 * 10 ^ fl + fv : ℕ) : ℤ)
          some (.num (if eneg then mkRat mant (10 ^ fl * 10 ^ emag)
                      else mkRat (mant * 10 ^ emag) (10 ^ fl)), r3)
    else none
  | [] => none

/-- Recursive descent over JSON text, fuel-indexed so that the recursion is
structural (and hence reduces inside the kernel).  `mode = 0` parses one JSON
value after optional whitespace; `mode = 1` parses a non-empty
comma-separated value list terminated by a closing square bracket, returned
as a `Json.arr`; any other mode parses a non-empty member list terminated by
a closing curly bracket, returned as a `Json.obj`.  Callers supply fuel
exceeding any possible recursion depth. -/
def parseCore : Nat → Nat → List Char → Option (Json × List Char)
  | 0, _, _ => none
  | fuel + 1, 0, s =>
    match s.dropWhile isWsChar with
    | 'n' :: 'u' :: 'l' :: 'l' :: r => some (.null, r)
    | 't' :: 'r' :: 'u' :: 'e' :: r => some (.bool true, r)
    | 'f' :: 'a' :: 'l' :: 's' :: 'e' :: r => some (.bool false, r)
    | '"' :: r => (parseStringBody r []).map (fun p => (Json.str p.1, p.2))
    | '[' :: r =>
      match r.dropWhile isWsChar with
      | ']' :: rr => some (.arr [], rr)
      | r' => parseCore fuel 1 r'
    | '{' :: r =>
      match r.dropWhile isWsChar with
      | '}' :: rr => some (.obj [], rr)
      | r' => parseCore fuel 2 r'
    | s' => parseNumber s'
  | fuel + 1, 1, s =>
    match parseCore fuel 0 s with
    | some (v, r) =>
      match r.dropWhile isWsChar with
      | ',' :: rr =>
        match parseCore fuel 1 rr with
        | some (.arr vs, r2) => some (.arr (v :: vs), r2)
        | _ => none
      | ']' :: rr => some (.arr [v], rr)
      | _ => none
    | _ => none
  | fuel + 1, _, s =>
    match s.dropWhile isWsChar with
    | '"' :: r =>
      match parseStringBody r [] with
      | none => none
      | some (k, r1) =>
        match r1.dropWhile isWsChar with
        | ':' :: r2 =>
          match parseCore fuel 0 r2 with
          | none => none
          | some (v, r3) =>
            match r3.dropWhile isWsChar with
            | ',' :: rr =>
              match parseCore fuel 2 rr with
              | some (.obj ms, r4) => some (.obj ((k, v) :: ms), r4)
              | _ => none
            | '}' :: rr => some (.obj [(k, v)], rr)
            | _ => none
        | _ => none
    | _ => none

/-- Model of the ECMAScript built-in `JSON.parse`, as invoked on `index.ts`
line 174: returns the parsed value, or `none` where `JSON.parse` would throw
a `SyntaxError`.  Surrounding whitespace is ignored, which is realised here
by trimming before the descent. -/
def jsonParse (s : String) : Option Json :=
  let l := trimList s.data
  match parseCore (2 * l.length + 2) 0 l with
  | some (v, rest) => if rest.dropWhile isWsChar = [] then some v else none
  | none => none

example : jsonParse "  \x7b\"a\": 1, \"b\": [true, null]\x7d " =
    some (.obj [("a", .num 1), ("b", .arr [.bool true, .null])]) := by rfl

example : jsonParse "3.25e1" = some (.num (mkRat 65 2)) := by rfl

example : jsonParse "-0.5" = some (.num (mkRat (-1) 2)) := by rfl

example : jsonParse "hello" = none := by rfl

example : jsonParse "\x7b\"a\": 1" = none := by rfl

example : jsonParse "01" = none := by rfl

example : jsonParse "\"a\\nb\"" = some (.str "a\nb") := by rfl

example : cleanContent "```json\n\x7b\"a\":1\x7d\n```" = "\x7b\"a\":1\x7d" := by rfl

example : cleanContent "```json\n\"```\"\n```" = "\"\"" := by rfl

/-- Member access `a.k` in JavaScript, for `a` the parsed analysis object:
`none` models `undefined`.  On a duplicate key `JSON.parse` keeps the last
occurrence, hence the reversed search. -/
def Json.getField : Json → String → Option Json
  | .obj ms, k => (ms.reverse.find? (fun p => p.1 == k)).map (fun p => p.2)
  | _, _ => none

/-- JavaScript truthiness of a possibly-`undefined` JSON value (the JSON
grammar cannot produce `NaN`, so falsy numbers are exactly `0`). -/
def jsTruthy : Option Json → Bool
  | none => false
  | some .null => false
  | some (.bool b) => b
  | some (.num q) => q != 0
  | some (.str s) => s != ""
  | some (.arr _) => true
  | some (.obj _) => true

/-- One article of the news response (`NewsArticle` in `index.ts`). -/
structure Article where
  title : String
  description : Option String
  url : String
  publishedAt : String
  deriving DecidableEq

/-- One raw FRED observation: `date` and the textual `value`, which may be
the sentinel full stop. -/
structure FredObs where
  date : String
  value : String
  deriving DecidableEq

/-- One point of the stored series (`SeriesData` in `index.ts`). -/
structure SeriesPoint where
  date : String
  value : ℚ
  deriving DecidableEq

/-- One entry of the `FRED_SERIES` pool. -/
structure FredSeriesEntry where
  id : String
  title : String
  deriving DecidableEq

/-- The fixed pool of `index.ts` lines 22-28. -/
def FRED_SERIES : List FredSeriesEntry :=
  [⟨"UNRATE", "US Unemployment Rate (%)"⟩,
   ⟨"INDPRO", "Industrial Production Index (2017=100)"⟩,
   ⟨"PAYEMS", "Total Non-farm Payroll Employment (thousands)"⟩,
   ⟨"CES0500000003", "Average Hourly Earnings, Total Private ($)"⟩,
   ⟨"AWHMAN", "Average Weekly Hours, Manufacturing (hours)"⟩]

/-- Model of the ECMAScript built-in `parseFloat` (`index.ts` lines 102 and
105): skip leading whitespace, then read the longest numeric literal at the
head (optional sign, digits, optional fraction, optional well-formed
exponent); `none` models a `NaN` result.  The `Infinity` literal, which no
FRED payload contains, is not modelled. -/
def jsParseFloat (s : String) : Option ℚ :=
  let l0 := s.data.dropWhile isWsChar
  let sgn : ℤ × List Char :=
    match l0 with
    | '-' :: r => (-1, r)
    | '+' :: r => (1, r)
    | _ => (1, l0)
  let ip := sgn.2.span Char.isDigit
  let fr : (ℕ × ℕ) × List Char :=
    match ip.2 with
    | '.' :: rr =>
      let fp := rr.span Char.isDigit
      ((fp.1.length, digitsVal fp.1), fp.2)
    | _ => ((0, 0), ip.2)
  if ip.1 = [] ∧ fr.1.1 = 0 then none
  else
    let ex : Bool × ℕ :=
      match fr.2 with
      | e :: rr =>
        if e = 'e' || e = 'E' then
          let es : Bool × List Char :=
            match rr with
            | '+' :: q => (false, q)
            | '-' :: q => (true, q)
            | _ => (false, rr)
          let ep := es.2.span Char.isDigit
          if ep.1 = [] then (false, 0) else (es.1, digitsVal ep.1)
        else (false, 0)
      | [] => (false, 0)
    let mant : ℤ := sgn.1 * ((digitsVal ip.1 * 10 ^ fr.1.1 + fr.1.2 : ℕ) : ℤ)
    some (if ex.1 then mkRat mant (10 ^ fr.1.1 * 10 ^ ex.2)
          else mkRat (mant * 10 ^ ex.2) (10 ^ fr.1.1))

example : jsParseFloat "4.2" = some (mkRat 21 5) := by rfl

example : jsParseFloat "." = none := by rfl

example : jsParseFloat "abc" = none := by rfl

/-- Model of `Array.prototype.slice(-n)`: the last `min n (length)` elements
in order. -/
def jsSliceLast (n : Nat) (l : List α) : List α :=
  l.drop (l.length - n)

/-- The filter of `index.ts` line 102: drop the sentinel full stop and every
value whose `parseFloat` is `NaN`. -/
def fredKeep (o : FredObs) : Bool :=
  o.value != "." && (jsParseFloat o.value).isSome

/-- The map of `index.ts` lines 103-106: date plus parsed value. -/
def fredPoint (o : FredObs) : SeriesPoint :=
  ⟨o.date, (jsParseFloat o.value).getD 0⟩

/-- Model of `index.ts` lines 101-107: `fredData.observations?.filter(...)?.map(...)
?.slice(-60) || []`.  A missing `observations` field gives the empty
list. -/
def seriesDataOf : Option (List FredObs) → List SeriesPoint
  | none => []
  | some obs => jsSliceLast 60 ((obs.filter fredKeep).map fredPoint)

/-- Environment configuration read on `index.ts` lines 40-44; `none` models
an unset variable. -/
structure Env where
  supabaseUrl : Option String
  supabaseServiceKey : Option String
  newsApiKey : Option String
  openaiApiKey : Option String
  fredApiKey : Option String
  deriving DecidableEq

/-- JavaScript falsiness of `Deno.env.get`'s result: unset, or set to the
empty string. -/
def jsFalsyStr : Option String → Bool
  | none => true
  | some s => s == ""

/-- Valuation of everything outside the handler's control in one run: the
outcome of the three fetches, the random series draw, and the store's answer
to the insert.  `openaiContent` is `choices[0].message.content` of the model
response. -/
structure World where
  newsOk : Bool
  newsStatus : ℕ
  newsArticles : Option (List Article)
  fredIndex : Fin 5
  fredOk : Bool
  fredStatus : ℕ
  fredObservations : Option (List FredObs)
  openaiOk : Bool
  openaiStatus : ℕ
  openaiContent : String
  insertError : Option String

/-- The row written by the insert of `index.ts` lines 218-232.  The analysis
fields hold whatever JSON values validation let through; note that the
`*_tooltip` columns are filled from the `*_tip` keys. -/
structure Report where
  rating : Json
  summary : Json
  productivity_insight : Json
  american_dream_impact : Json
  prod_labor_score : Json
  prod_labor_tooltip : Json
  american_dream_score : Json
  american_dream_tooltip : Json
  series_id : String
  series_title : String
  series_data : List SeriesPoint

/-- Body of a handler response, after `JSON.stringify`. -/
inductive RespBody where
  | empty : RespBody
  | failure (error : String) (details : Option String) : RespBody
  | success (report : Report) (articlesAnalyzed : ℕ) (fredSeries : String) : RespBody

/-- A `Response` as the handler builds it: status, headers, body. -/
structure HttpResponse where
  status : ℕ
  headers : List (String × String)
  body : RespBody

/-- The CORS headers of `index.ts` lines 4-7. -/
def corsHeaders : List (String × String) :=
  [("Access-Control-Allow-Origin", "*"),
   ("Access-Control-Allow-Headers", "authorization, x-client-info, apikey, content-type")]

/-- Headers of every non-preflight response: CORS plus the JSON content
type. -/
def jsonRespHeaders : List (String × String) :=
  corsHeaders ++ [("Content-Type", "application/json")]

/-- Response built by the outer catch (`index.ts` lines 266-278). -/
def errResp (msg : String) : HttpResponse :=
  ⟨500, jsonRespHeaders, .failure msg none⟩

/-- Response built by the parse/validation catch (`index.ts` lines
198-213). -/
def parseFailResp (details : String) : HttpResponse :=
  ⟨500, jsonRespHeaders, .failure "AI response parsing failed" (some details)⟩

/-- Response built on a rejected insert (`index.ts` lines 236-249). -/
def dbFailResp (details : String) : HttpResponse :=
  ⟨500, jsonRespHeaders, .failure "Database insertion failed" (some details)⟩

/-- Stand-in for the engine-specific `SyntaxError` message that
`JSON.parse` throws on unparseable input; the source forwards it verbatim as
`details`. -/
def jsonParseErrMsg : String := "Unexpected token in JSON"

/-- The truthiness test of `index.ts` lines 177-179: all eight schema fields
must be truthy, so `0` and the empty string count as missing. -/
def requiredFieldsPresent (a : Json) : Bool :=
  jsTruthy (a.getField "rating") && jsTruthy (a.getField "summary") &&
  jsTruthy (a.getField "productivity_insight") && jsTruthy (a.getField "american_dream_impact") &&
  jsTruthy (a.getField "prod_labor_score") && jsTruthy (a.getField "prod_labor_tip") &&
  jsTruthy (a.getField "american_dream_score") && jsTruthy (a.getField "american_dream_tip")

/-- Check of `index.ts` line 184: `rating` is a number within bounds. -/
def ratingValid (a : Json) : Bool :=
  match a.getField "rating" with
  | some (.num q) => decide (1 ≤ q) && decide (q ≤ 10)
  | _ => false

/-- Check of `index.ts` line 189: `prod_labor_score` is a number within bounds. -/
def prodLaborValid (a : Json) : Bool :=
  match a.getField "prod_labor_score" with
  | some (.num q) => decide (0 ≤ q) && decide (q ≤ 100)
  | _ => false

/-- Check of `index.ts` line 194: `american_dream_score` is a number within
bounds. -/
def dreamValid (a : Json) : Bool :=
  match a.getField "american_dream_score" with
  | some (.num q) => decide (0 ≤ q) && decide (q ≤ 100)
  | _ => false

/-- The row assembled on `index.ts` lines 220-232 from the validated
analysis, the selected series and the computed series data. -/
def mkReport (a : Json) (sel : FredSeriesEntry) (sd : List SeriesPoint) : Report :=
  { rating := (a.getField "rating").getD .null
    summary := (a.getField "summary").getD .null
    productivity_insight := (a.getField "productivity_insight").getD .null
    american_dream_impact := (a.getField "american_dream_impact").getD .null
    prod_labor_score := (a.getField "prod_labor_score").getD .null
    prod_labor_tooltip := (a.getField "prod_labor_tip").getD .null
    american_dream_score := (a.getField "american_dream_score").getD .null
    american_dream_tooltip := (a.getField "american_dream_tip").getD .null
    series_id := sel.id
    series_title := sel.title
    series_data := sd }

/-- Outbound effects of one run, in order. -/
inductive Event where
  | newsCall : Event
  | fredCall : Event
  | openaiCall : Event
  | insertCall : Event
  deriving DecidableEq

/-- The `Deno.serve` handler of `index.ts` lines 30-279 as a pure function:
given the request method, the environment, the external world and the
current store it yields the response, the store afterwards and the trace of
outbound calls.  Every `throw` inside the `try` lands in the outer catch,
which is inlined here as the `errResp` branches. -/
def handle (method : String) (env : Env) (w : World) (store : List Report) :
    HttpResponse × List Report × List Event :=
  if method == "OPTIONS" then (⟨200, corsHeaders, .empty⟩, store, [])
  else if jsFalsyStr env.supabaseUrl || jsFalsyStr env.supabaseServiceKey then
    (errResp "Supabase configuration missing", store, [])
  else if jsFalsyStr env.newsApiKey then
    (errResp "NEWS_API_KEY not configured", store, [])
  else if jsFalsyStr env.openaiApiKey then
    (errResp "OPENAI_API_KEY not configured", store, [])
  else if jsFalsyStr env.fredApiKey then
    (errResp "FRED_API_KEY not configured", store, [])
  else if !w.newsOk then
    (errResp ("NewsAPI error: " ++ toString w.newsStatus), store, [.newsCall])
  else
    let articles := w.newsArticles.getD []
    if articles.length = 0 then
      (errResp "No articles found", store, [.newsCall])
    else
      let selectedSeries := FRED_SERIES.getD w.fredIndex.val ⟨"", ""⟩
      if !w.fredOk then
        (errResp ("FRED API error: " ++ toString w.fredStatus), store, [.newsCall, .fredCall])
      else
        let seriesData := seriesDataOf w.fredObservations
        if !w.openaiOk then
          (errResp ("OpenAI API error: " ++ toString w.openaiStatus), store,
            [.newsCall, .fredCall, .openaiCall])
        else
          match jsonParse (cleanContent w.openaiContent) with
          | none =>
            (parseFailResp jsonParseErrMsg, store, [.newsCall, .fredCall, .openaiCall])
          | some analysis =>
            if !requiredFieldsPresent analysis then
              (parseFailResp "Missing required fields in AI response", store,
                [.newsCall, .fredCall, .openaiCall])
            else if !ratingValid analysis then
              (parseFailResp "Rating must be a number between 1 and 10", store,
                [.newsCall, .fredCall, .openaiCall])
            else if !prodLaborValid analysis then
              (parseFailResp "Productivity vs Labor score must be a number between 0 and 100",
                store, [.newsCall, .fredCall, .openaiCall])
            else if !dreamValid analysis then
              (parseFailResp "American Dream score must be a number between 0 and 100",
                store, [.newsCall, .fredCall, .openaiCall])
            else
              match w.insertError with
              | some msg =>
                (dbFailResp msg, store, [.newsCall, .fredCall, .openaiCall, .insertCall])
              | none =>
                let report := mkReport analysis selectedSeries seriesData
                (⟨200, jsonRespHeaders, .success report articles.length selectedSeries.title⟩,
                  store ++ [report], [.newsCall, .fredCall, .openaiCall, .insertCall])

/-- A sample article for concrete runs. -/
def exArticle : Article := ⟨"t", some "d", "u", "2025-01-01"⟩

/-- A fully valid model output for concrete runs. -/
def exGoodContent : String :=
  "\x7b\"rating\": 7, \"summary\": \"s\", \"productivity_insight\": \"p\", " ++
  "\"american_dream_impact\": \"a\", \"prod_labor_score\": 55, \"prod_labor_tip\": \"t1\", " ++
  "\"american_dream_score\": 60, \"american_dream_tip\": \"t2\"\x7d"

/-- An environment with all credentials set. -/
def exEnv : Env := ⟨some "url", some "svc", some "news", some "oai", some "fred"⟩

/-- A fully successful world valuation. -/
def exWorld : World :=
  ⟨true, 200, some [exArticle], ⟨0, by decide⟩, true, 200,
    some [⟨"2020-01-01", "3.5"⟩, ⟨"2020-02-01", "."⟩], true, 200, exGoodContent, none⟩

example :
    (handle "POST" exEnv exWorld []).1.status = 200 ∧
    (handle "POST" exEnv exWorld []).2.1.length = 1 := by
  constructor
  · rfl
  · rfl

example : (handle "POST" exEnv exWorld []).2.1.map Report.series_data =
    [[⟨"2020-01-01", mkRat 7 2⟩]] := by rfl

/-- A JavaScript number as the history dashboard sees it: either `NaN` or an
actual rational value. -/
inductive JSNum where
  | nan : JSNum
  | num (q : ℚ) : JSNum
  deriving DecidableEq

/-- Subtraction on JavaScript numbers: `NaN` is absorbing. -/
def jsSub : JSNum → JSNum → JSNum
  | .num a, .num b => .num (a - b)
  | _, _ => .nan

/-- One row of the `reports` selection made by the history page; `created_at`
is modelled as the epoch-millisecond value that `new Date(created_at)`
produces, and each metric is `none` for SQL `NULL`. -/
structure ReportRow where
  created_at : ℤ
  rating : Option JSNum
  prod_labor_score : Option JSNum
  american_dream_score : Option JSNum
  deriving DecidableEq

/-- Epoch milliseconds of `new Date('2025-01-01')`, the baseline cutoff used
by both history variants. -/
def baselineCutoffMs : ℤ := 1735689600000

namespace HistoryTsx

/-- Function `delta` of `src/pages/History.tsx` lines 87-90: `null` when either
argument is `null`/`undefined`, otherwise plain subtraction (so a `NaN`
argument yields a `NaN` delta). -/
def delta (a b : Option JSNum) : Option JSNum :=
  match a, b with
  | none, _ => none
  | _, none => none
  | some x, some y => some (jsSub y x)

/-- Function `baseline` of `src/pages/History.tsx` line 92: first row dated on or
after the cutoff. -/
def baseline (data : List ReportRow) : Option ReportRow :=
  data.find? (fun r => decide (baselineCutoffMs ≤ r.created_at))

/-- The delta card value for one metric (`History.tsx` lines 155-169):
`delta(baseline?.metric, latest?.metric)` with `latest = data[data.length -
1]`. -/
def metricDelta (data : List ReportRow) (m : ReportRow → Option JSNum) : Option JSNum :=
  delta ((baseline data).bind m) ((data.getLast?).bind m)

end HistoryTsx

namespace HistoryVariant

/-- Function `delta` of `src/unnamed/part_002` lines 122-125: `null` when either
argument is `null`/`undefined` or `NaN`, otherwise subtraction. -/
def delta (a b : Option JSNum) : Option JSNum :=
  match a, b with
  | some (.num x), some (.num y) => some (.num (y - x))
  | _, _ => none

/-- Function `reportsBaseline` of `src/unnamed/part_002` line 128: first row dated on
or after the cutoff, falling back to the first row. -/
def reportsBaseline (data : List ReportRow) : Option ReportRow :=
  match data.find? (fun r => decide (baselineCutoffMs ≤ r.created_at)) with
  | some r => some r
  | none => data.head?

/-- The delta card value for one metric (`part_002` lines 220-234). -/
def metricDelta (data : List ReportRow) (m : ReportRow → Option JSNum) : Option JSNum :=
  delta ((reportsBaseline data).bind m) ((data.getLast?).bind m)

end HistoryVariant

theorem leadsWith_iff (u : List Char) : ∀ v, leadsWith u v = true ↔ u <+: v := by
  induction u with
  | nil => intro v; simp [leadsWith]
  | cons a as ih =>
    intro v
    cases v with
    | nil => simp [leadsWith]
    | cons b bs =>
      simp only [leadsWith, Bool.and_eq_true, beq_iff_eq, ih bs]
      constructor
      · rintro ⟨rfl, r, rfl⟩
        exact ⟨r, rfl⟩
      · rintro ⟨r, hr⟩
        injection hr with hb hr
        exact ⟨hb, r, hr⟩

theorem leadsWith_false_of_not {u v : List Char} (h : ¬ u <+: v) : leadsWith u v = false := by
  cases hlw : leadsWith u v with
  | false => rfl
  | true => exact absurd ((leadsWith_iff u v).1 hlw) h

theorem prefix_through_append {u v w : List Char} (h : u <+: v ++ w)
    (hl : u.length ≤ v.length) : u <+: v := by
  have htake : (v ++ w).take u.length = u := by
    obtain ⟨r, hr⟩ := h
    rw [← hr, List.take_left]
  have hv : v.take u.length = u := by
    have h1 : ((v ++ w).take v.length).take u.length = (v ++ w).take (min u.length v.length) :=
      List.take_take _ _ _
    rw [List.take_left, Nat.min_eq_left hl, htake] at h1
    exact h1
  have hsplit := List.take_append_drop u.length v
  rw [hv] at hsplit
  exact ⟨v.drop u.length, hsplit⟩

theorem containsSeq_cons {tok : List Char} {c : Char} {r : List Char}
    (h : containsSeq tok (c :: r) = false) :
    ¬ tok <+: (c :: r) ∧ containsSeq tok r = false := by
  have h' : (leadsWith tok (c :: r) || containsSeq tok r) = false := h
  simp only [Bool.or_eq_false_iff] at h'
  refine ⟨fun hp => ?_, h'.2⟩
  rw [(leadsWith_iff tok (c :: r)).2 hp] at h'
  exact Bool.noConfusion h'.1

theorem dw_head_false {p : Char → Bool} : ∀ {l : List Char} {a : Char},
    (l.dropWhile p).head? = some a → p a = false := by
  intro l
  induction l with
  | nil => intro a h; simp [List.dropWhile] at h
  | cons b bs ih =>
    intro a h
    by_cases hb : p b = true
    · rw [List.dropWhile_cons_of_pos hb] at h
      exact ih h
    · rw [List.dropWhile_cons_of_neg hb] at h
      simp only [List.head?_cons, Option.some.injEq] at h
      rw [← h]
      exact Bool.eq_false_iff.2 hb

theorem dw_of_head_false {p : Char → Bool} {l : List Char}
    (h : ∀ a, l.head? = some a → p a = false) : l.dropWhile p = l := by
  cases l with
  | nil => rfl
  | cons a r =>
    have ha := h a rfl
    rw [List.dropWhile_cons_of_neg (by rw [ha]; exact Bool.false_ne_true)]

theorem dw_idem {p : Char → Bool} {l : List Char} :
    (l.dropWhile p).dropWhile p = l.dropWhile p :=
  dw_of_head_false (fun _ ha => dw_head_false ha)

theorem suffix_getLast? {l m : List Char} (h : m <:+ l) (hm : m ≠ []) :
    m.getLast? = l.getLast? := by
  obtain ⟨r, rfl⟩ := h
  exact (List.getLast?_append_of_ne_nil r hm).symm

theorem trim_idem (l : List Char) : trimList (trimList l) = trimList l := by
  unfold trimList
  have h1 : ((l.reverse.dropWhile isWsChar).reverse.dropWhile isWsChar).reverse.dropWhile
      isWsChar = ((l.reverse.dropWhile isWsChar).reverse.dropWhile isWsChar).reverse := by
    apply dw_of_head_false
    intro a ha
    rw [List.head?_reverse] at ha
    have hm_ne : (l.reverse.dropWhile isWsChar).reverse.dropWhile isWsChar ≠ [] := by
      intro h0
      rw [h0] at ha
      simp at ha
    have hsuff : (l.reverse.dropWhile isWsChar).reverse.dropWhile isWsChar <:+
        (l.reverse.dropWhile isWsChar).reverse := List.dropWhile_suffix _
    rw [suffix_getLast? hsuff hm_ne] at ha
    rw [← List.head?_reverse, List.reverse_reverse] at ha
    exact dw_head_false ha
  rw [h1, List.reverse_reverse]
  exact dw_idem

theorem trim_append_nl (t : List Char) : trimList (t ++ ['\n']) = trimList t := by
  unfold trimList
  have h : (t ++ ['\n']).reverse.dropWhile isWsChar = t.reverse.dropWhile isWsChar := by
    rw [List.reverse_append]
    rfl
  rw [h]

theorem string_data_append (a b : String) : (a ++ b).data = a.data ++ b.data := rfl

theorem jsonParse_mk_trim (s : String) :
    jsonParse (String.mk (trimList s.data)) = jsonParse s := by
  unfold jsonParse
  rw [show (String.mk (trimList s.data)).data = trimList s.data from rfl, trim_idem]

theorem leadsWith_cons_false (a : Char) (as : List Char) (b : Char) (bs : List Char)
    (h : leadsWith as bs = false) : leadsWith (a :: as) (b :: bs) = false := by
  simp only [leadsWith, h, Bool.and_false]

theorem stripGo_cons_no_match (tok : List Char) (c : Char) (rest : List Char)
    (h1 : leadsWith (tok ++ ['\n']) (c :: rest) = false)
    (h2 : leadsWith tok (c :: rest) = false) :
    stripTokenGo tok 0 (c :: rest) = c :: stripTokenGo tok 0 rest := by
  simp only [stripTokenGo, h1, h2, Bool.false_eq_true, if_false]

theorem stripGo_fence_head (X : List Char) :
    stripTokenGo fenceJsonTok 0 ("```json\n".data ++ X) = stripTokenGo fenceJsonTok 0 X := by
  rfl

theorem stripJson_leaves (t : List Char) (h : containsSeq fenceTok t = false) :
    stripTokenGo fenceJsonTok 0 (t ++ "\n```".data) = t ++ "\n```".data := by
  induction t with
  | nil => rfl
  | cons c t' ih =>
    obtain ⟨hnp, h'⟩ := containsSeq_cons h
    have hsfx : ("\n```".data).length = 4 := rfl
    have key : ∀ u : List Char, fenceTok <+: u → 7 ≤ u.length →
        leadsWith u ((c :: t') ++ "\n```".data) = false := by
      intro u hu hul
      apply leadsWith_false_of_not
      intro habs
      have hft : fenceTok <+: (c :: t') ++ "\n```".data := hu.trans habs
      have hlen2 : u.length ≤ ((c :: t') ++ "\n```".data).length := habs.length_le
      rw [List.length_append, hsfx] at hlen2
      have h3 : 3 ≤ (c :: t').length := by omega
      exact hnp (prefix_through_append hft
        (by rw [show fenceTok.length = 3 from rfl]; exact h3))
    have k1 : leadsWith (fenceJsonTok ++ ['\n']) ((c :: t') ++ "\n```".data) = false :=
      key _ ⟨"json\n".data, rfl⟩ (by decide)
    have k2 : leadsWith fenceJsonTok ((c :: t') ++ "\n```".data) = false :=
      key _ ⟨"json".data, rfl⟩ (by decide)
    rw [show (c :: t') ++ "\n```".data = c :: (t' ++ "\n```".data) from rfl] at k1 k2 ⊢
    rw [stripGo_cons_no_match _ _ _ k1 k2, ih h']

theorem stripBt_strips (t : List Char) (h : containsSeq fenceTok t = false) :
    stripTokenGo fenceTok 0 (t ++ "\n```".data) = t ++ ['\n'] := by
  induction t with
  | nil => rfl
  | cons c t' ih =>
    obtain ⟨hnp, h'⟩ := containsSeq_cons h
    cases t' with
    | nil =>
      show stripTokenGo fenceTok 0 (c :: "\n```".data) = c :: ['\n']
      rw [stripGo_cons_no_match fenceTok c ("\n```".data)
        (leadsWith_cons_false _ _ _ _ (by rfl)) (leadsWith_cons_false _ _ _ _ (by rfl))]
      rfl
    | cons d t'' =>
      cases t'' with
      | nil =>
        show stripTokenGo fenceTok 0 (c :: d :: "\n```".data) = c :: d :: ['\n']
        rw [stripGo_cons_no_match fenceTok c (d :: "\n```".data)
          (leadsWith_cons_false _ _ _ _ (leadsWith_cons_false _ _ _ _ (by rfl)))
          (leadsWith_cons_false _ _ _ _ (leadsWith_cons_false _ _ _ _ (by rfl)))]
        rw [stripGo_cons_no_match fenceTok d ("\n```".data)
          (leadsWith_cons_false _ _ _ _ (by rfl)) (leadsWith_cons_false _ _ _ _ (by rfl))]
        rfl
      | cons e t''' =>
        have key : ∀ u : List Char, fenceTok <+: u →
            leadsWith u ((c :: d :: e :: t''') ++ "\n```".data) = false := by
          intro u hu
          apply leadsWith_false_of_not
          intro habs
          have hft : fenceTok <+: (c :: d :: e :: t''') ++ "\n```".data := hu.trans habs
          have h3 : 3 ≤ (c :: d :: e :: t''').length := by
            simp only [List.length_cons]
            omega
          exact hnp (prefix_through_append hft
            (by rw [show fenceTok.length = 3 from rfl]; exact h3))
        have k1 : leadsWith (fenceTok ++ ['\n'])
            (c :: ((d :: e :: t''') ++ "\n```".data)) = false := key _ ⟨['\n'], rfl⟩
        have k2 : leadsWith fenceTok (c :: ((d :: e :: t''') ++ "\n```".data)) = false :=
          key _ ⟨[], List.append_nil _⟩
        show stripTokenGo fenceTok 0 (c :: ((d :: e :: t''') ++ "\n```".data)) =
          c :: ((d :: e :: t''') ++ ['\n'])
        rw [stripGo_cons_no_match _ _ _ k1 k2, ih h']

theorem cleanContent_fenced (t : String) (h : containsSeq fenceTok t.data = false) :
    cleanContent ("```json\n" ++ t ++ "\n```") = String.mk (trimList t.data) := by
  unfold cleanContent stripToken
  rw [string_data_append, string_data_append, List.append_assoc]
  rw [stripGo_fence_head, stripJson_leaves t.data h, stripBt_strips t.data h, trim_append_nl]

/-- Claim C7 (counterexample): the claim quantifies over every valid JSON
text, but the two `replace` calls of `index.ts` line 173 are global, so they
also delete fence-marker sequences inside the JSON text itself.  For the
valid JSON text consisting of a string literal holding three backticks,
fencing then stripping then parsing yields the empty string instead of the
original three-backtick string. -/
theorem c7_counterexample :
    jsonParse "\"```\"" = some (Json.str "```") ∧
    jsonParse (cleanContent ("```json\n" ++ "\"```\"" ++ "\n```")) = some (Json.str "") ∧
    Json.str "" ≠ Json.str "```" := by
  refine ⟨by rfl, by rfl, ?_⟩
  intro hcontra
  injection hcontra with h'
  exact absurd h' (by decide)

/-- Claim C7 (amended): for every valid JSON text in which the fence-marker
sequence of three backticks does not occur, wrapping the text in
fenced-code-block markers and then applying the pipeline's fence-stripping
step (`cleanContent`, `index.ts` line 173) followed by JSON parsing yields
exactly the value obtained by parsing the unfenced text directly. -/
theorem c7_fence_strip_roundtrip (t : String) (v : Json)
    (hv : jsonParse t = some v) (h : containsSeq fenceTok t.data = false) :
    jsonParse (cleanContent ("```json\n" ++ t ++ "\n```")) = some v := by
  rw [cleanContent_fenced t h, jsonParse_mk_trim, hv]

/-- Witness for claim C7: a concrete fence-free JSON object round-trips
through fencing and stripping. -/
theorem c7_witness :
    jsonParse (cleanContent ("```json\n" ++ "\x7b\"a\": 1\x7d" ++ "\n```")) =
      some (Json.obj [("a", Json.num 1)]) :=
  c7_fence_strip_roundtrip "\x7b\"a\": 1\x7d" (Json.obj [("a", Json.num 1)])
    (by rfl) (by rfl)

/-- Claim C1: whenever a run reaches the model stage and the raw model
output is not parseable as JSON even after fence stripping, the handler
returns the structured failure response with error `AI response parsing
failed`, a `details` message and internal-failure status 500
(`parseFailResp`), the store is returned unchanged, and the trace contains
no insert call. -/
theorem c1_parse_failure_no_write (method : String) (env : Env) (w : World)
    (store : List Report)
    (hm : (method == "OPTIONS") = false)
    (h1 : jsFalsyStr env.supabaseUrl = false) (h2 : jsFalsyStr env.supabaseServiceKey = false)
    (h3 : jsFalsyStr env.newsApiKey = false) (h4 : jsFalsyStr env.openaiApiKey = false)
    (h5 : jsFalsyStr env.fredApiKey = false)
    (hn : w.newsOk = true) (ha : (w.newsArticles.getD []).length ≠ 0)
    (hf : w.fredOk = true) (ho : w.openaiOk = true)
    (hp : jsonParse (cleanContent w.openaiContent) = none) :
    handle method env w store =
      (parseFailResp jsonParseErrMsg, store,
        [Event.newsCall, Event.fredCall, Event.openaiCall]) := by
  simp [handle, hm, h1, h2, h3, h4, h5, hn, ha, hf, ho, hp]

/-- A run whose model output is prose, not JSON. -/
def exWorldBadJson : World := { exWorld with openaiContent := "the model replied with prose" }

/-- Witness for claim C1: a concrete unparseable model output yields the
structured parse failure and leaves the store empty. -/
theorem c1_witness :
    handle "POST" exEnv exWorldBadJson [] =
      (parseFailResp jsonParseErrMsg, [],
        [Event.newsCall, Event.fredCall, Event.openaiCall]) :=
  c1_parse_failure_no_write "POST" exEnv exWorldBadJson [] (by rfl) (by rfl) (by rfl)
    (by rfl) (by rfl) (by rfl) (by rfl) (by decide) (by rfl) (by rfl) (by rfl)

/-- A model output that satisfies the whole schema except that
`prod_labor_score` is the boundary value `0`. -/
def scoreZeroContent : String :=
  "\x7b\"rating\": 7, \"summary\": \"s\", \"productivity_insight\": \"p\", " ++
  "\"american_dream_impact\": \"a\", \"prod_labor_score\": 0, \"prod_labor_tip\": \"t1\", " ++
  "\"american_dream_score\": 60, \"american_dream_tip\": \"t2\"\x7d"

/-- The parsed form of `scoreZeroContent`. -/
def scoreZeroAnalysis : Json :=
  .obj [("rating", .num 7), ("summary", .str "s"), ("productivity_insight", .str "p"),
    ("american_dream_impact", .str "a"), ("prod_labor_score", .num 0),
    ("prod_labor_tip", .str "t1"), ("american_dream_score", .num 60),
    ("american_dream_tip", .str "t2")]

/-- A run whose model output is `scoreZeroContent`. -/
def exWorldScoreZero : World := { exWorld with openaiContent := scoreZeroContent }

/-- Claim C2 (code bug): the range rules of `index.ts` lines 189-196 do
accept a `*_score` of `0` (here `prodLaborValid` is `true` on the parsed
output), but the truthiness-based required-field check of lines 177-181
rejects the very same output as `Missing required fields in AI response`, so
a run whose only peculiarity is the in-range boundary score `0` fails and
writes nothing — contradicting the code's own prompt and error messages,
which declare the score domain to be 0 to 100. -/
theorem c2_boundary_zero_rejected :
    jsonParse (cleanContent scoreZeroContent) = some scoreZeroAnalysis ∧
    prodLaborValid scoreZeroAnalysis = true ∧
    ratingValid scoreZeroAnalysis = true ∧
    dreamValid scoreZeroAnalysis = true ∧
    handle "POST" exEnv exWorldScoreZero [] =
      (parseFailResp "Missing required fields in AI response", [],
        [Event.newsCall, Event.fredCall, Event.openaiCall]) :=
  ⟨by rfl, by rfl, by rfl, by rfl, by rfl⟩

/-- Eighty raw observations, five of which carry the sentinel value. -/
def ex80Obs : List FredObs :=
  (List.range 80).map
    (fun i => if i % 16 = 0 then ⟨toString i, "."⟩ else ⟨toString i, toString i⟩)

/-- Claim C3: the computed series data is a suffix of the order-preserving
image of the sentinel-and-parse-failure-free observations, has at most 60
entries, and every point stems from an observation that is neither the
sentinel nor numerically unparseable; for 80 raw observations with 5
sentinels, exactly 60 points remain. -/
theorem c3_series_data_shape :
    (∀ obs : List FredObs,
      (seriesDataOf (some obs)).length ≤ 60 ∧
      seriesDataOf (some obs) <:+ (obs.filter fredKeep).map fredPoint ∧
      (∀ x ∈ seriesDataOf (some obs), ∃ o, o ∈ obs ∧ o.value ≠ "." ∧
        (jsParseFloat o.value).isSome = true ∧ x = fredPoint o)) ∧
    (seriesDataOf (some ex80Obs)).length = 60 := by
  constructor
  · intro obs
    refine ⟨?_, ?_, ?_⟩
    · show (jsSliceLast 60 ((obs.filter fredKeep).map fredPoint)).length ≤ 60
      simp only [jsSliceLast, List.length_drop]
      omega
    · exact List.drop_suffix _ _
    · intro x hx
      have hx' : x ∈ (obs.filter fredKeep).map fredPoint :=
        List.mem_of_mem_drop hx
      obtain ⟨o, ho, rfl⟩ := List.mem_map.1 hx'
      obtain ⟨ho1, ho2⟩ := List.mem_filter.1 ho
      simp only [fredKeep, Bool.and_eq_true, bne_iff_ne] at ho2
      exact ⟨o, ho1, ho2.1, ho2.2, rfl⟩
  · rfl

/-- Witness for claim C3: a concrete point of a concrete series traces back
to a non-sentinel, parseable observation. -/
theorem c3_witness :
    ∃ o, o ∈ [(⟨"d1", "1.5"⟩ : FredObs), ⟨"d2", "."⟩] ∧ o.value ≠ "." ∧
      (jsParseFloat o.value).isSome = true ∧
      (⟨"d1", mkRat 3 2⟩ : SeriesPoint) = fredPoint o :=
  (c3_series_data_shape.1 [⟨"d1", "1.5"⟩, ⟨"d2", "."⟩]).2.2 ⟨"d1", mkRat 3 2⟩ (by decide)

/-- Claim C4: when the news fetch succeeds but yields zero articles, the run
fails with `No articles found` (a `success: false` response), the store is
unchanged, and the trace shows that neither the model endpoint nor the store
was called. -/
theorem c4_no_articles_aborts (method : String) (env : Env) (w : World)
    (store : List Report)
    (hm : (method == "OPTIONS") = false)
    (h1 : jsFalsyStr env.supabaseUrl = false) (h2 : jsFalsyStr env.supabaseServiceKey = false)
    (h3 : jsFalsyStr env.newsApiKey = false) (h4 : jsFalsyStr env.openaiApiKey = false)
    (h5 : jsFalsyStr env.fredApiKey = false)
    (hn : w.newsOk = true) (ha : (w.newsArticles.getD []).length = 0) :
    handle method env w store = (errResp "No articles found", store, [Event.newsCall]) ∧
    Event.openaiCall ∉ (handle method env w store).2.2 ∧
    Event.insertCall ∉ (handle method env w store).2.2 := by
  have hmain : handle method env w store =
      (errResp "No articles found", store, [Event.newsCall]) := by
    simp [handle, hm, h1, h2, h3, h4, h5, hn, ha]
  refine ⟨hmain, ?_, ?_⟩
  · rw [hmain]
    simp
  · rw [hmain]
    simp

/-- A run whose news fetch succeeds with an empty article array. -/
def exWorldNoArticles : World := { exWorld with newsArticles := some [] }

/-- Witness for claim C4: a concrete zero-article run aborts before the
model call. -/
theorem c4_witness :
    handle "POST" exEnv exWorldNoArticles [] =
      (errResp "No articles found", [], [Event.newsCall]) ∧
    Event.openaiCall ∉ (handle "POST" exEnv exWorldNoArticles []).2.2 ∧
    Event.insertCall ∉ (handle "POST" exEnv exWorldNoArticles []).2.2 :=
  c4_no_articles_aborts "POST" exEnv exWorldNoArticles [] (by rfl) (by rfl) (by rfl)
    (by rfl) (by rfl) (by rfl) (by rfl) (by rfl)

/-- Claim C5: whenever the parsed model output's `rating` is not a number
within the range 1 to 10, the run ends in the parse/validation failure
response (error `AI response parsing failed`, status 500) with some detail
message, the store is unchanged and nothing is inserted. -/
theorem c5_rating_range_rejected (method : String) (env : Env) (w : World)
    (store : List Report)
    (hm : (method == "OPTIONS") = false)
    (h1 : jsFalsyStr env.supabaseUrl = false) (h2 : jsFalsyStr env.supabaseServiceKey = false)
    (h3 : jsFalsyStr env.newsApiKey = false) (h4 : jsFalsyStr env.openaiApiKey = false)
    (h5 : jsFalsyStr env.fredApiKey = false)
    (hn : w.newsOk = true) (ha : (w.newsArticles.getD []).length ≠ 0)
    (hf : w.fredOk = true) (ho : w.openaiOk = true)
    (a : Json) (hp : jsonParse (cleanContent w.openaiContent) = some a)
    (hr : ratingValid a = false) :
    ∃ d, handle method env w store =
      (parseFailResp d, store, [Event.newsCall, Event.fredCall, Event.openaiCall]) := by
  by_cases hreq : requiredFieldsPresent a = true
  · refine ⟨"Rating must be a number between 1 and 10", ?_⟩
    simp [handle, hm, h1, h2, h3, h4, h5, hn, ha, hf, ho, hp, hreq, hr]
  · have hreq' : requiredFieldsPresent a = false := by
      cases hq : requiredFieldsPresent a
      · rfl
      · exact absurd hq hreq
    refine ⟨"Missing required fields in AI response", ?_⟩
    simp [handle, hm, h1, h2, h3, h4, h5, hn, ha, hf, ho, hp, hreq']

/-- A model output valid in every respect except `rating: 11`. -/
def rating11Content : String :=
  "\x7b\"rating\": 11, \"summary\": \"s\", \"productivity_insight\": \"p\", " ++
  "\"american_dream_impact\": \"a\", \"prod_labor_score\": 55, \"prod_labor_tip\": \"t1\", " ++
  "\"american_dream_score\": 60, \"american_dream_tip\": \"t2\"\x7d"

/-- The parsed form of `rating11Content`. -/
def rating11Analysis : Json :=
  .obj [("rating", .num 11), ("summary", .str "s"), ("productivity_insight", .str "p"),
    ("american_dream_impact", .str "a"), ("prod_labor_score", .num 55),
    ("prod_labor_tip", .str "t1"), ("american_dream_score", .num 60),
    ("american_dream_tip", .str "t2")]

/-- A run whose model output is `rating11Content`. -/
def exWorldRating11 : World := { exWorld with openaiContent := rating11Content }

/-- Witness for claim C5: `rating: 11` is rejected with a validation failure
and no insert. -/
theorem c5_witness :
    ∃ d, handle "POST" exEnv exWorldRating11 [] =
      (parseFailResp d, [], [Event.newsCall, Event.fredCall, Event.openaiCall]) :=
  c5_rating_range_rejected "POST" exEnv exWorldRating11 [] (by rfl) (by rfl) (by rfl)
    (by rfl) (by rfl) (by rfl) (by rfl) (by decide) (by rfl) (by rfl)
    rating11Analysis (by rfl) (by rfl)

/-- An environment whose store URL is missing but whose other credentials
are present. -/
def envMissingUrl : Env := ⟨none, some "svc", some "news", some "oai", some "fred"⟩

/-- Claim C6 (counterexample): with `SUPABASE_URL` missing the handler does
abort before any network call, but the error message is the fixed text
`Supabase configuration missing`, which does not name the missing
configuration key (it does not contain the substring `SUPABASE_URL`), so the
claim as stated fails for the store credentials. -/
theorem c6_counterexample :
    handle "POST" envMissingUrl exWorld [] =
      (errResp "Supabase configuration missing", [], []) ∧
    containsSeq "SUPABASE_URL".data "Supabase configuration missing".data = false :=
  ⟨by rfl, by rfl⟩

/-- Claim C6 (amended): a missing credential always aborts the run before
any network call (the trace is empty) with a fatal error response; for the
news, model and macro keys the message names the missing key
(`NEWS_API_KEY not configured` and so on), while for a missing store URL or
store service key the message is the generic `Supabase configuration
missing`. -/
theorem c6_missing_credential :
    (∀ (method : String) (env : Env) (w : World) (store : List Report),
      (method == "OPTIONS") = false →
      (jsFalsyStr env.supabaseUrl || jsFalsyStr env.supabaseServiceKey) = true →
      handle method env w store = (errResp "Supabase configuration missing", store, [])) ∧
    (∀ (method : String) (env : Env) (w : World) (store : List Report),
      (method == "OPTIONS") = false →
      jsFalsyStr env.supabaseUrl = false → jsFalsyStr env.supabaseServiceKey = false →
      jsFalsyStr env.newsApiKey = true →
      handle method env w store = (errResp "NEWS_API_KEY not configured", store, [])) ∧
    (∀ (method : String) (env : Env) (w : World) (store : List Report),
      (method == "OPTIONS") = false →
      jsFalsyStr env.supabaseUrl = false → jsFalsyStr env.supabaseServiceKey = false →
      jsFalsyStr env.newsApiKey = false → jsFalsyStr env.openaiApiKey = true →
      handle method env w store = (errResp "OPENAI_API_KEY not configured", store, [])) ∧
    (∀ (method : String) (env : Env) (w : World) (store : List Report),
      (method == "OPTIONS") = false →
      jsFalsyStr env.supabaseUrl = false → jsFalsyStr env.supabaseServiceKey = false →
      jsFalsyStr env.newsApiKey = false → jsFalsyStr env.openaiApiKey = false →
      jsFalsyStr env.fredApiKey = true →
      handle method env w store = (errResp "FRED_API_KEY not configured", store, [])) := by
  refine ⟨?_, ?_, ?_, ?_⟩
  · intro method env w store hm hcred
    simp [handle, hm, hcred]
  · intro method env w store hm h1 h2 h3
    simp [handle, hm, h1, h2, h3]
  · intro method env w store hm h1 h2 h3 h4
    simp [handle, hm, h1, h2, h3, h4]
  · intro method env w store hm h1 h2 h3 h4 h5
    simp [handle, hm, h1, h2, h3, h4, h5]

/-- Witness for claim C6: a concrete environment missing only the news key
aborts with the message naming that key and an empty trace. -/
theorem c6_witness :
    handle "POST" (⟨some "url", some "svc", none, some "oai", some "fred"⟩ : Env)
      exWorld [] = (errResp "NEWS_API_KEY not configured", [], []) :=
  c6_missing_credential.2.1 "POST" ⟨some "url", some "svc", none, some "oai", some "fred"⟩
    exWorld [] (by rfl) (by rfl) (by rfl) (by rfl)

theorem hv_delta_none_left (b : Option JSNum) : HistoryVariant.delta none b = none := by
  cases b with
  | none => rfl
  | some j => cases j <;> rfl

theorem hv_delta_nan_left (b : Option JSNum) :
    HistoryVariant.delta (some JSNum.nan) b = none := by
  cases b with
  | none => rfl
  | some j => cases j <;> rfl

theorem hv_delta_none_right (a : Option JSNum) : HistoryVariant.delta a none = none := by
  cases a with
  | none => rfl
  | some j => cases j <;> rfl

theorem hv_delta_nan_right (a : Option JSNum) :
    HistoryVariant.delta a (some JSNum.nan) = none := by
  cases a with
  | none => rfl
  | some j => cases j <;> rfl

/-- Claim C8 (counterexample): in the live history page
(`src/pages/History.tsx`) the delta is not `null` when an endpoint is `NaN`:
with a baseline rating of `NaN` and a latest rating of `5`, the delta card
value is `NaN`, not `null`. -/
theorem c8_counterexample :
    HistoryTsx.metricDelta
      [⟨baselineCutoffMs, some JSNum.nan, none, none⟩,
       ⟨baselineCutoffMs + 86400000, some (JSNum.num 5), none, none⟩]
      ReportRow.rating = some JSNum.nan ∧
    some JSNum.nan ≠ (none : Option JSNum) :=
  ⟨by rfl, by decide⟩

/-- Claim C8 (amended): for every sequence of dated samples with the
2025-01-01 baseline, the delta for a metric equals `latest - baseline` when
both endpoints are present numbers; in the `part_002` history variant the
delta is `null` whenever either endpoint is missing (`null`) or `NaN`, while
in the live `History.tsx` the delta is `null` whenever either endpoint is
missing (`null`/`undefined`) — a `NaN` endpoint there yields a `NaN` delta
instead. -/
theorem c8_history_delta :
    (∀ (data : List ReportRow) (m : ReportRow → Option JSNum) (x y : ℚ),
      (HistoryVariant.reportsBaseline data).bind m = some (JSNum.num x) →
      (data.getLast?).bind m = some (JSNum.num y) →
      HistoryVariant.metricDelta data m = some (JSNum.num (y - x))) ∧
    (∀ (data : List ReportRow) (m : ReportRow → Option JSNum),
      ((HistoryVariant.reportsBaseline data).bind m = none ∨
        (HistoryVariant.reportsBaseline data).bind m = some JSNum.nan ∨
        (data.getLast?).bind m = none ∨
        (data.getLast?).bind m = some JSNum.nan) →
      HistoryVariant.metricDelta data m = none) ∧
    (∀ (data : List ReportRow) (m : ReportRow → Option JSNum) (x y : ℚ),
      (HistoryTsx.baseline data).bind m = some (JSNum.num x) →
      (data.getLast?).bind m = some (JSNum.num y) →
      HistoryTsx.metricDelta data m = some (JSNum.num (y - x))) ∧
    (∀ (data : List ReportRow) (m : ReportRow → Option JSNum),
      ((HistoryTsx.baseline data).bind m = none ∨ (data.getLast?).bind m = none) →
      HistoryTsx.metricDelta data m = none) := by
  refine ⟨?_, ?_, ?_, ?_⟩
  · intro data m x y hb hl
    unfold HistoryVariant.metricDelta
    rw [hb, hl]
    rfl
  · intro data m h
    unfold HistoryVariant.metricDelta
    rcases h with h | h | h | h
    · rw [h]
      exact hv_delta_none_left _
    · rw [h]
      exact hv_delta_nan_left _
    · rw [h]
      exact hv_delta_none_right _
    · rw [h]
      exact hv_delta_nan_right _
  · intro data m x y hb hl
    unfold HistoryTsx.metricDelta
    rw [hb, hl]
    rfl
  · intro data m h
    unfold HistoryTsx.metricDelta
    rcases h with h | h
    · rw [h]
      cases (data.getLast?).bind m <;> rfl
    · rw [h]
      cases (HistoryTsx.baseline data).bind m <;> rfl

/-- Witness for claim C8: on a concrete two-row history the delta of the
rating metric is `latest - baseline`. -/
theorem c8_witness :
    HistoryVariant.metricDelta
      [⟨baselineCutoffMs, some (JSNum.num 3), none, none⟩,
       ⟨baselineCutoffMs + 1, some (JSNum.num 5), none, none⟩]
      ReportRow.rating = some (JSNum.num (5 - 3)) :=
  c8_history_delta.1 _ ReportRow.rating 3 5 (by rfl) (by rfl)

theorem cors_mem_corsHeaders : ("Access-Control-Allow-Origin", "*") ∈ corsHeaders := by
  decide

theorem cors_mem_jsonRespHeaders : ("Access-Control-Allow-Origin", "*") ∈ jsonRespHeaders := by
  decide

/-- Claim C9: for every request the handler yields a response (the embedding
is a total function, so no exception escapes), every response carries the
permissive CORS header, and the transport status is either 200 or 500 with a
structured `success: false` failure body. -/
theorem c9_responses_cors_and_structured :
    ∀ (method : String) (env : Env) (w : World) (store : List Report),
      ("Access-Control-Allow-Origin", "*") ∈ (handle method env w store).1.headers ∧
      ((handle method env w store).1.status = 200 ∨
        ((handle method env w store).1.status = 500 ∧
          ∃ e d, (handle method env w store).1.body = RespBody.failure e d)) := by
  intro method env w store
  by_cases hOpt : (method == "OPTIONS") = true
  · have hmain : handle method env w store = (⟨200, corsHeaders, .empty⟩, store, []) := by
      simp [handle, hOpt]
    rw [hmain]
    exact ⟨cors_mem_corsHeaders, Or.inl rfl⟩
  rw [Bool.not_eq_true] at hOpt
  by_cases hSup : (jsFalsyStr env.supabaseUrl || jsFalsyStr env.supabaseServiceKey) = true
  · have hmain : handle method env w store =
        (errResp "Supabase configuration missing", store, []) := by
      simp [handle, hOpt, hSup]
    rw [hmain]
    exact ⟨cors_mem_jsonRespHeaders, Or.inr ⟨rfl, _, _, rfl⟩⟩
  rw [Bool.not_eq_true] at hSup
  by_cases hNK : jsFalsyStr env.newsApiKey = true
  · have hmain : handle method env w store =
        (errResp "NEWS_API_KEY not configured", store, []) := by
      simp [handle, hOpt, hSup, hNK]
    rw [hmain]
    exact ⟨cors_mem_jsonRespHeaders, Or.inr ⟨rfl, _, _, rfl⟩⟩
  rw [Bool.not_eq_true] at hNK
  by_cases hOK : jsFalsyStr env.openaiApiKey = true
  · have hmain : handle method env w store =
        (errResp "OPENAI_API_KEY not configured", store, []) := by
      simp [handle, hOpt, hSup, hNK, hOK]
    rw [hmain]
    exact ⟨cors_mem_jsonRespHeaders, Or.inr ⟨rfl, _, _, rfl⟩⟩
  rw [Bool.not_eq_true] at hOK
  by_cases hFK : jsFalsyStr env.fredApiKey = true
  · have hmain : handle method env w store =
        (errResp "FRED_API_KEY not configured", store, []) := by
      simp [handle, hOpt, hSup, hNK, hOK, hFK]
    rw [hmain]
    exact ⟨cors_mem_jsonRespHeaders, Or.inr ⟨rfl, _, _, rfl⟩⟩
  rw [Bool.not_eq_true] at hFK
  by_cases hNews : w.newsOk = true
  case neg =>
    rw [Bool.not_eq_true] at hNews
    have hmain : handle method env w store =
        (errResp ("NewsAPI error: " ++ toString w.newsStatus), store, [Event.newsCall]) := by
      simp [handle, hOpt, hSup, hNK, hOK, hFK, hNews]
    rw [hmain]
    exact ⟨cors_mem_jsonRespHeaders, Or.inr ⟨rfl, _, _, rfl⟩⟩
  by_cases hArt : (w.newsArticles.getD []).length = 0
  · have hmain : handle method env w store =
        (errResp "No articles found", store, [Event.newsCall]) := by
      simp [handle, hOpt, hSup, hNK, hOK, hFK, hNews, hArt]
    rw [hmain]
    exact ⟨cors_mem_jsonRespHeaders, Or.inr ⟨rfl, _, _, rfl⟩⟩
  by_cases hFred : w.fredOk = true
  case neg =>
    rw [Bool.not_eq_true] at hFred
    have hmain : handle method env w store =
        (errResp ("FRED API error: " ++ toString w.fredStatus), store,
          [Event.newsCall, Event.fredCall]) := by
      simp [handle, hOpt, hSup, hNK, hOK, hFK, hNews, hArt, hFred]
    rw [hmain]
    exact ⟨cors_mem_jsonRespHeaders, Or.inr ⟨rfl, _, _, rfl⟩⟩
  by_cases hOai : w.openaiOk = true
  case neg =>
    rw [Bool.not_eq_true] at hOai
    have hmain : handle method env w store =
        (errResp ("OpenAI API error: " ++ toString w.openaiStatus), store,
          [Event.newsCall, Event.fredCall, Event.openaiCall]) := by
      simp [handle, hOpt, hSup, hNK, hOK, hFK, hNews, hArt, hFred, hOai]
    rw [hmain]
    exact ⟨cors_mem_jsonRespHeaders, Or.inr ⟨rfl, _, _, rfl⟩⟩
  rcases hparse : jsonParse (cleanContent w.openaiContent) with _ | a
  · have hmain : handle method env w store =
        (parseFailResp jsonParseErrMsg, store,
          [Event.newsCall, Event.fredCall, Event.openaiCall]) := by
      simp [handle, hOpt, hSup, hNK, hOK, hFK, hNews, hArt, hFred, hOai, hparse]
    rw [hmain]
    exact ⟨cors_mem_jsonRespHeaders, Or.inr ⟨rfl, _, _, rfl⟩⟩
  by_cases hReq : requiredFieldsPresent a = true
  case neg =>
    rw [Bool.not_eq_true] at hReq
    have hmain : handle method env w store =
        (parseFailResp "Missing required fields in AI response", store,
          [Event.newsCall, Event.fredCall, Event.openaiCall]) := by
      simp [handle, hOpt, hSup, hNK, hOK, hFK, hNews, hArt, hFred, hOai, hparse, hReq]
    rw [hmain]
    exact ⟨cors_mem_jsonRespHeaders, Or.inr ⟨rfl, _, _, rfl⟩⟩
  by_cases hRat : ratingValid a = true
  case neg =>
    rw [Bool.not_eq_true] at hRat
    have hmain : handle method env w store =
        (parseFailResp "Rating must be a number between 1 and 10", store,
          [Event.newsCall, Event.fredCall, Event.openaiCall]) := by
      simp [handle, hOpt, hSup, hNK, hOK, hFK, hNews, hArt, hFred, hOai, hparse, hReq, hRat]
    rw [hmain]
    exact ⟨cors_mem_jsonRespHeaders, Or.inr ⟨rfl, _, _, rfl⟩⟩
  by_cases hPL : prodLaborValid a = true
  case neg =>
    rw [Bool.not_eq_true] at hPL
    have hmain : handle method env w store =
        (parseFailResp "Productivity vs Labor score must be a number between 0 and 100",
          store, [Event.newsCall, Event.fredCall, Event.openaiCall]) := by
      simp [handle, hOpt, hSup, hNK, hOK, hFK, hNews, hArt, hFred, hOai, hparse, hReq,
        hRat, hPL]
    rw [hmain]
    exact ⟨cors_mem_jsonRespHeaders, Or.inr ⟨rfl, _, _, rfl⟩⟩
  by_cases hAD : dreamValid a = true
  case neg =>
    rw [Bool.not_eq_true] at hAD
    have hmain : handle method env w store =
        (parseFailResp "American Dream score must be a number between 0 and 100",
          store, [Event.newsCall, Event.fredCall, Event.openaiCall]) := by
      simp [handle, hOpt, hSup, hNK, hOK, hFK, hNews, hArt, hFred, hOai, hparse, hReq,
        hRat, hPL, hAD]
    rw [hmain]
    exact ⟨cors_mem_jsonRespHeaders, Or.inr ⟨rfl, _, _, rfl⟩⟩
  rcases hins : w.insertError with _ | msg
  · have hmain : handle method env w store =
        (⟨200, jsonRespHeaders,
            .success (mkReport a (FRED_SERIES.getD w.fredIndex.val ⟨"", ""⟩)
                (seriesDataOf w.fredObservations))
              (w.newsArticles.getD []).length
              (FRED_SERIES.getD w.fredIndex.val ⟨"", ""⟩).title⟩,
          store ++ [mkReport a (FRED_SERIES.getD w.fredIndex.val ⟨"", ""⟩)
            (seriesDataOf w.fredObservations)],
          [Event.newsCall, Event.fredCall, Event.openaiCall, Event.insertCall]) := by
      simp [handle, hOpt, hSup, hNK, hOK, hFK, hNews, hArt, hFred, hOai, hparse, hReq,
        hRat, hPL, hAD, hins]
    rw [hmain]
    exact ⟨cors_mem_jsonRespHeaders, Or.inl rfl⟩
  · have hmain : handle method env w store =
        (dbFailResp msg, store,
          [Event.newsCall, Event.fredCall, Event.openaiCall, Event.insertCall]) := by
      simp [handle, hOpt, hSup, hNK, hOK, hFK, hNews, hArt, hFred, hOai, hparse, hReq,
        hRat, hPL, hAD, hins]
    rw [hmain]
    exact ⟨cors_mem_jsonRespHeaders, Or.inr ⟨rfl, _, _, rfl⟩⟩

/-- Witness for claim C9: the CORS header is on the concrete preflight
response. -/
theorem c9_witness :
    ("Access-Control-Allow-Origin", "*") ∈ (handle "OPTIONS" exEnv exWorld []).1.headers ∧
    ((handle "OPTIONS" exEnv exWorld []).1.status = 200 ∨
      ((handle "OPTIONS" exEnv exWorld []).1.status = 500 ∧
        ∃ e d, (handle "OPTIONS" exEnv exWorld []).1.body = RespBody.failure e d)) :=
  c9_responses_cors_and_structured "OPTIONS" exEnv exWorld []

/-- Claim C10: a successful HTTP macro fetch whose observations are all
filtered out (or absent) does not stop a run: with a valid model output and
accepting store, the run reaches success, inserts exactly one report, and
that report carries the selected series id and title together with an empty
`series_data`. -/
theorem c10_empty_series_success (method : String) (env : Env) (w : World)
    (store : List Report)
    (hm : (method == "OPTIONS") = false)
    (h1 : jsFalsyStr env.supabaseUrl = false) (h2 : jsFalsyStr env.supabaseServiceKey = false)
    (h3 : jsFalsyStr env.newsApiKey = false) (h4 : jsFalsyStr env.openaiApiKey = false)
    (h5 : jsFalsyStr env.fredApiKey = false)
    (hn : w.newsOk = true) (ha : (w.newsArticles.getD []).length ≠ 0)
    (hf : w.fredOk = true) (ho : w.openaiOk = true)
    (a : Json) (hp : jsonParse (cleanContent w.openaiContent) = some a)
    (hreq : requiredFieldsPresent a = true) (hr : ratingValid a = true)
    (hpl : prodLaborValid a = true) (hd : dreamValid a = true)
    (hins : w.insertError = none)
    (hobs : w.fredObservations = none ∨
      ∃ l, w.fredObservations = some l ∧ l.filter fredKeep = []) :
    handle method env w store =
      (⟨200, jsonRespHeaders,
          .success (mkReport a (FRED_SERIES.getD w.fredIndex.val ⟨"", ""⟩) [])
            (w.newsArticles.getD []).length
            (FRED_SERIES.getD w.fredIndex.val ⟨"", ""⟩).title⟩,
        store ++ [mkReport a (FRED_SERIES.getD w.fredIndex.val ⟨"", ""⟩) []],
        [Event.newsCall, Event.fredCall, Event.openaiCall, Event.insertCall]) ∧
    (mkReport a (FRED_SERIES.getD w.fredIndex.val ⟨"", ""⟩) []).series_data = [] ∧
    (mkReport a (FRED_SERIES.getD w.fredIndex.val ⟨"", ""⟩) []).series_id =
      (FRED_SERIES.getD w.fredIndex.val ⟨"", ""⟩).id ∧
    (mkReport a (FRED_SERIES.getD w.fredIndex.val ⟨"", ""⟩) []).series_title =
      (FRED_SERIES.getD w.fredIndex.val ⟨"", ""⟩).title := by
  have hsd : seriesDataOf w.fredObservations = [] := by
    rcases hobs with h | ⟨l, hl, hfil⟩
    · rw [h]
      rfl
    · rw [hl]
      show jsSliceLast 60 ((l.filter fredKeep).map fredPoint) = []
      rw [hfil]
      rfl
  refine ⟨?_, rfl, rfl, rfl⟩
  simp [handle, hm, h1, h2, h3, h4, h5, hn, ha, hf, ho, hp, hreq, hr, hpl, hd, hins, hsd]

/-- The parsed form of `exGoodContent`. -/
def exGoodAnalysis : Json :=
  .obj [("rating", .num 7), ("summary", .str "s"), ("productivity_insight", .str "p"),
    ("american_dream_impact", .str "a"), ("prod_labor_score", .num 55),
    ("prod_labor_tip", .str "t1"), ("american_dream_score", .num 60),
    ("american_dream_tip", .str "t2")]

/-- A run whose macro observations all carry the sentinel value. -/
def exWorldEmptySeries : World := { exWorld with fredObservations := some [⟨"d", "."⟩] }

/-- Witness for claim C10: a concrete run with a fully-sentinel macro series
succeeds and stores the series identity with empty data. -/
theorem c10_witness :
    handle "POST" exEnv exWorldEmptySeries [] =
      (⟨200, jsonRespHeaders,
          .success (mkReport exGoodAnalysis
              (FRED_SERIES.getD (exWorldEmptySeries.fredIndex).val ⟨"", ""⟩) [])
            (exWorldEmptySeries.newsArticles.getD []).length
            (FRED_SERIES.getD (exWorldEmptySeries.fredIndex).val ⟨"", ""⟩).title⟩,
        [mkReport exGoodAnalysis
          (FRED_SERIES.getD (exWorldEmptySeries.fredIndex).val ⟨"", ""⟩) []],
        [Event.newsCall, Event.fredCall, Event.openaiCall, Event.insertCall]) ∧
    (mkReport exGoodAnalysis
      (FRED_SERIES.getD (exWorldEmptySeries.fredIndex).val ⟨"", ""⟩) []).series_data = [] ∧
    (mkReport exGoodAnalysis
      (FRED_SERIES.getD (exWorldEmptySeries.fredIndex).val ⟨"", ""⟩) []).series_id =
      (FRED_SERIES.getD (exWorldEmptySeries.fredIndex).val ⟨"", ""⟩).id ∧
    (mkReport exGoodAnalysis
      (FRED_SERIES.getD (exWorldEmptySeries.fredIndex).val ⟨"", ""⟩) []).series_title =
      (FRED_SERIES.getD (exWorldEmptySeries.fredIndex).val ⟨"", ""⟩).title :=
  c10_empty_series_success "POST" exEnv exWorldEmptySeries [] (by rfl) (by rfl) (by rfl)
    (by rfl) (by rfl) (by rfl) (by rfl) (by decide) (by rfl) (by rfl)
    exGoodAnalysis (by rfl) (by rfl) (by rfl) (by rfl) (by rfl) (by rfl)
    (Or.inr ⟨[⟨"d", "."⟩], rfl, by rfl⟩)
